import Mathlib

/-!
Verification of the revenue-ranked content pipeline of the GlobalBlogAuto
repository: the country ranking engine and monetization spot engine
(src/core/revenue_optimizer.py), the monetization spot detector
(src/core/gemini_engine.py), and the content pipeline orchestrator
(src/main.py) with its collaborators (src/database/manager.py,
src/core/auto_publisher.py, src/core/seo_optimizer.py).

Python dicts holding per-country parameters are modelled as records with
Option-valued fields: a `none` field models an absent key, `Option.getD`
models `dict.get(key, default)`, and subscript access `d[key]` is modelled
as an `Except`-valued lookup that fails on an absent key like the Python
KeyError.  Floats are modelled as exact rationals.  Wall-clock timestamp
fields (`generated_at`, `updated_at`, `deployed_at`) are omitted: they
carry no decision logic.
-/

/-- One per-country record of `RevenueOptimizer.country_revenue_data`
(src/core/revenue_optimizer.py lines 20-117).  Every field is optional
because the source stores a dict; the `cmp` field records the misspelled
key `"cmp"` that the Australia entry carries instead of `"cpm"`. -/
structure CountryData where
  cpm : Option ℚ := none
  cmp : Option ℚ := none
  ad_click_rate : Option ℚ := none
  affiliate_conversion : Option ℚ := none
  purchasing_power : Option ℚ := none
  market_size : Option ℚ := none
  competition : Option ℚ := none
  monthly_potential : Option ℚ := none
  top_affiliate_categories : List String := []
  ad_networks : List String := []
  premium_keywords : List String := []
deriving DecidableEq

/-- A monetization spot dict as built by
`GeminiContentEngine._identify_monetization_opportunities` and extended by
`RevenueOptimizer._optimize_monetization_spot`.  The optimization-added
keys are optional: they are absent on freshly detected spots. -/
@[ext]
structure Spot where
  type : String
  position : Nat
  context : String
  revenue_potential : String
  ad_size : Option String := none
  priority : Option String := none
  recommended_categories : Option (List String) := none
  conversion_rate : Option ℚ := none
  placement : Option String := none
deriving DecidableEq

/-- Result dict of `RevenueOptimizer._calculate_revenue_prediction`
(src/core/revenue_optimizer.py lines 221-251), without the wall-clock
`updated_at` field. -/
structure RevenuePrediction where
  monthly_ad_revenue : ℚ
  monthly_affiliate_revenue : ℚ
  total_monthly_revenue : ℚ
  estimated_views : ℚ
  cpm : ℚ
deriving DecidableEq

/-- The `metadata` dict attached by `GeminiContentEngine.generate_content`;
the fallback path attaches a smaller dict, hence the optional fields.
The wall-clock `generated_at` key is omitted. -/
structure Metadata where
  keyword : String
  country : String
  content_type : Option String := none
  monetization_level : Option String := none
  language : Option String := none
  estimated_revenue : Option ℚ := none
  word_count : Option Nat := none
  status : Option String := none
deriving DecidableEq

/-- The content dict threaded through the pipeline.  Keys that are added
by later stages are optional. -/
structure Content where
  title : String := ""
  content : String := ""
  meta_description : String := ""
  tags : List String := []
  monetization_spots : Option (List Spot) := none
  seo_score : Option Nat := none
  metadata : Option Metadata := none
  premium_keywords : Option (List String) := none
  recommended_ad_networks : Option (List String) := none
  revenue_prediction : Option RevenuePrediction := none
  optimized_keywords : Option (List String) := none
  schema_markup : Option String := none
  full_html : Option String := none
deriving DecidableEq

/-- USA entry of `country_revenue_data`. -/
def usa_data : CountryData :=
  { cpm := some 12.5, ad_click_rate := some 0.08, affiliate_conversion := some 0.035,
    purchasing_power := some 9.5, market_size := some 10.0, competition := some 8.5,
    monthly_potential := some 15000,
    top_affiliate_categories := ["tech", "finance", "health", "insurance", "investment"],
    ad_networks := ["Google AdSense", "Media.net", "Amazon Associates"],
    premium_keywords := ["insurance", "mortgage", "credit card", "investment", "lawyer"] }

/-- Germany entry of `country_revenue_data`. -/
def germany_data : CountryData :=
  { cpm := some 8.7, ad_click_rate := some 0.06, affiliate_conversion := some 0.028,
    purchasing_power := some 8.9, market_size := some 8.5, competition := some 7.2,
    monthly_potential := some 10500,
    top_affiliate_categories := ["automotive", "tech", "finance", "insurance"],
    ad_networks := ["Google AdSense", "Zanox", "Amazon Associates"],
    premium_keywords := ["versicherung", "kredit", "auto", "technologie", "investition"] }

/-- UK entry of `country_revenue_data`. -/
def uk_data : CountryData :=
  { cpm := some 9.1, ad_click_rate := some 0.075, affiliate_conversion := some 0.032,
    purchasing_power := some 8.7, market_size := some 7.8, competition := some 8.0,
    monthly_potential := some 9800,
    top_affiliate_categories := ["finance", "property", "insurance", "tech"],
    ad_networks := ["Google AdSense", "Amazon Associates", "Commission Junction"],
    premium_keywords := ["mortgage", "insurance", "investment", "property", "credit"] }

/-- Canada entry of `country_revenue_data`. -/
def canada_data : CountryData :=
  { cpm := some 8.9, ad_click_rate := some 0.07, affiliate_conversion := some 0.03,
    purchasing_power := some 8.3, market_size := some 6.5, competition := some 6.8,
    monthly_potential := some 8200,
    top_affiliate_categories := ["finance", "outdoor", "tech", "insurance"],
    ad_networks := ["Google AdSense", "Amazon Associates", "ShareASale"],
    premium_keywords := ["insurance", "mortgage", "investment", "outdoor", "winter"] }

/-- Singapore entry of `country_revenue_data`. -/
def singapore_data : CountryData :=
  { cpm := some 8.3, ad_click_rate := some 0.065, affiliate_conversion := some 0.038,
    purchasing_power := some 8.8, market_size := some 5.2, competition := some 7.5,
    monthly_potential := some 7500,
    top_affiliate_categories := ["luxury", "finance", "property", "tech"],
    ad_networks := ["Google AdSense", "Amazon Associates", "Commission Factory"],
    premium_keywords := ["property", "investment", "luxury", "finance", "premium"] }

/-- Australia entry of `country_revenue_data`.  The source spells the CPM
key `"cmp"` (src/core/revenue_optimizer.py line 82), so the `cpm` field is
absent and the value 7.8 sits under `cmp`. -/
def australia_data : CountryData :=
  { cmp := some 7.8, ad_click_rate := some 0.068, affiliate_conversion := some 0.029,
    purchasing_power := some 7.9, market_size := some 6.0, competition := some 6.2,
    monthly_potential := some 6800,
    top_affiliate_categories := ["outdoor", "property", "finance", "tech"],
    ad_networks := ["Google AdSense", "Amazon Associates", "Commission Factory"],
    premium_keywords := ["property", "investment", "outdoor", "insurance", "finance"] }

/-- Japan entry of `country_revenue_data`. -/
def japan_data : CountryData :=
  { cpm := some 7.2, ad_click_rate := some 0.055, affiliate_conversion := some 0.025,
    purchasing_power := some 8.1, market_size := some 8.0, competition := some 9.0,
    monthly_potential := some 6200,
    top_affiliate_categories := ["tech", "beauty", "fashion", "finance"],
    ad_networks := ["Google AdSense", "Amazon Associates", "A8.net"],
    premium_keywords := ["保険", "投資", "技術", "美容", "ファッション"] }

/-- Korea entry of `country_revenue_data`. -/
def korea_data : CountryData :=
  { cpm := some 6.2, ad_click_rate := some 0.045, affiliate_conversion := some 0.022,
    purchasing_power := some 7.2, market_size := some 6.8, competition := some 8.5,
    monthly_potential := some 4500,
    top_affiliate_categories := ["beauty", "tech", "fashion", "food"],
    ad_networks := ["Google AdSense", "Coupang Partners", "Amazon Associates"],
    premium_keywords := ["보험", "투자", "뷰티", "기술", "패션"] }

/-- `RevenueOptimizer.country_revenue_data` as an association list in dict
insertion (= iteration) order, src/core/revenue_optimizer.py lines 20-117. -/
def country_revenue_data : List (String × CountryData) :=
  [("USA", usa_data), ("Germany", germany_data), ("UK", uk_data),
   ("Canada", canada_data), ("Singapore", singapore_data),
   ("Australia", australia_data), ("Japan", japan_data), ("Korea", korea_data)]

/-- The empty dict `{}` that `country_revenue_data.get(country, {})`
returns for an unknown country. -/
def empty_country_data : CountryData := {}

/-- The composite revenue score of `_rank_countries_by_revenue`
(src/core/revenue_optimizer.py lines 134-140): each term reads its field
with `dict.get` and the source's default (0 for cpm, purchasing power,
market size and click rate; 5 for competition). -/
def revenue_score (d : CountryData) : ℚ :=
  d.cpm.getD 0 * 0.3 +
  d.purchasing_power.getD 0 * 0.25 +
  d.market_size.getD 0 * 0.2 +
  (10 - d.competition.getD 5) * 0.15 +
  d.ad_click_rate.getD 0 * 100 * 0.1

/-- Stable descending insertion: `a` is placed after every element whose
score is at least `score a` and before the first strictly smaller one.
Processing the input left to right with this insert reproduces CPython's
stable `sorted(..., reverse=True)`: ties keep their input order. -/
def insert_desc {α : Type} (score : α → ℚ) (a : α) : List α → List α
  | [] => [a]
  | b :: l => if score a ≤ score b then b :: insert_desc score a l else a :: b :: l

/-- Stable descending sort by `score`, the model of
`sorted(keys, key=lambda x: country_scores[x], reverse=True)`. -/
def sort_desc {α : Type} (score : α → ℚ) (l : List α) : List α :=
  l.foldl (fun acc a => insert_desc score a acc) []

/-- `RevenueOptimizer._rank_countries_by_revenue`
(src/core/revenue_optimizer.py lines 128-144): score every entry of the
table and return the country keys sorted by score, descending and stable.
The table is an association list in dict insertion order with unique keys,
so sorting the `(key, data)` pairs and projecting the keys coincides with
the source's sort of the keys under `country_scores[x]` lookup. -/
def rank_countries (table : List (String × CountryData)) : List String :=
  (sort_desc (fun p => revenue_score p.2) table).map Prod.fst

/-- `self.top_countries`, computed from the built-in table at startup. -/
def top_countries : List String := rank_countries country_revenue_data

/-- `RevenueOptimizer.sort_countries_by_revenue`
(src/core/revenue_optimizer.py lines 146-148):
`[country for country in self.top_countries if country in countries]`. -/
def sort_countries_by_revenue (countries : List String) : List String :=
  top_countries.filter (fun c => countries.contains c)

/-- The spec's `filter_and_order(ranked, requested)` operation, which the
source realizes as `sort_countries_by_revenue` with `ranked` fixed to
`self.top_countries`: keep the ranked countries that were requested, in
ranked order. -/
def filter_and_order (ranked requested : List String) : List String :=
  ranked.filter (fun c => requested.contains c)

/-- Round to the nearest integer, ties to even — the rounding of CPython's
builtin `round`. -/
def round_half_even (q : ℚ) : ℤ :=
  if q - ⌊q⌋ < 1 / 2 then ⌊q⌋
  else if 1 / 2 < q - ⌊q⌋ then ⌊q⌋ + 1
  else if ⌊q⌋ % 2 = 0 then ⌊q⌋ else ⌊q⌋ + 1

/-- Python's `round(x, 2)` on the exact rational model. -/
def round2 (q : ℚ) : ℚ := (round_half_even (q * 100) : ℚ) / 100

/-- `RevenueOptimizer._optimize_monetization_spot`
(src/core/revenue_optimizer.py lines 189-219).  `cpm` is read with
`country_data.get("cpm", 5.0)`; the dict copy plus key assignments become
a record update. -/
def optimize_monetization_spot (spot : Spot) (d : CountryData) : Spot :=
  let cpm := d.cpm.getD 5
  let s1 :=
    if spot.type = "display_ad" then
      if 10 < cpm then { spot with ad_size := some "premium_banner", priority := some "high" }
      else if 7 < cpm then { spot with ad_size := some "standard_banner", priority := some "medium" }
      else { spot with ad_size := some "text_ad", priority := some "low" }
    else if spot.type = "affiliate_link" then
      { spot with recommended_categories := some (d.top_affiliate_categories.take 3),
                  conversion_rate := some (d.affiliate_conversion.getD 0.02) }
    else spot
  if 8 < cpm then { s1 with placement := some "above_fold" }
  else { s1 with placement := some "within_content" }

/-- `RevenueOptimizer._calculate_revenue_prediction`
(src/core/revenue_optimizer.py lines 221-251).  The `content` argument of
the source is unused by the computation and omitted; the wall-clock
`updated_at` key is omitted.  The body cannot fail on the typed model, so
the source's defensive `except` branch is unreachable. -/
def calculate_revenue_prediction (d : CountryData) : RevenuePrediction :=
  let estimated_monthly_views : ℚ := 10000
  let cpm := d.cpm.getD 5
  let click_rate := d.ad_click_rate.getD 0.05
  let conversion_rate := d.affiliate_conversion.getD 0.02
  let ad_revenue := estimated_monthly_views * cpm / 1000
  let affiliate_clicks := estimated_monthly_views * click_rate
  let affiliate_revenue := affiliate_clicks * conversion_rate * 50
  let total_revenue := ad_revenue + affiliate_revenue
  { monthly_ad_revenue := round2 ad_revenue,
    monthly_affiliate_revenue := round2 affiliate_revenue,
    total_monthly_revenue := round2 total_revenue,
    estimated_views := estimated_monthly_views,
    cpm := cpm }

/-- `self.country_revenue_data.get(country, {})`. -/
def lookup_country_data (country : String) : CountryData :=
  (country_revenue_data.lookup country).getD empty_country_data

/-- `RevenueOptimizer.add_monetization`
(src/core/revenue_optimizer.py lines 154-187): optimize the existing
spots when the `monetization_spots` key is present, then attach the
country's premium keywords, recommended ad networks and a revenue
prediction.  On the typed model the body is total, so the source's
`except` fallback to the unmodified content is unreachable. -/
def add_monetization (content : Content) (country : String) : Content :=
  let country_data := lookup_country_data country
  let c1 :=
    match content.monetization_spots with
    | some spots =>
        let optimized := spots.map (fun s => optimize_monetization_spot s country_data)
        { content with monetization_spots := some optimized }
    | none => content
  { c1 with premium_keywords := some country_data.premium_keywords,
            recommended_ad_networks := some country_data.ad_networks,
            revenue_prediction := some (calculate_revenue_prediction country_data) }

/-- Python subscript `d[key]` on an optional field: `KeyError` when the
key is absent. -/
def dict_get {α : Type} (v : Option α) (key : String) : Except String α :=
  match v with
  | some x => Except.ok x
  | none => Except.error ("KeyError: " ++ key)

/-- `sum(data["monthly_potential"] for data in ...)` with subscript
semantics, left to right. -/
def sum_potentials : List (String × CountryData) → Except String ℚ
  | [] => Except.ok 0
  | (_, d) :: rest => do
      let v ← dict_get d.monthly_potential "monthly_potential"
      let t ← sum_potentials rest
      Except.ok (v + t)

/-- The `high_cpm_countries` comprehension of `get_revenue_insights`
(src/core/revenue_optimizer.py lines 302-305):
`[c for c, data in ... if data["cpm"] > 8.0]` with subscript semantics. -/
def high_cpm_countries : List (String × CountryData) → Except String (List String)
  | [] => Except.ok []
  | (c, d) :: rest => do
      let v ← dict_get d.cpm "cpm"
      let t ← high_cpm_countries rest
      Except.ok (if 8 < v then c :: t else t)

/-- The `low_competition_countries` comprehension of
`get_revenue_insights` (lines 306-309):
`[c for c, data in ... if data["competition"] < 7.0]`. -/
def low_competition_countries : List (String × CountryData) → Except String (List String)
  | [] => Except.ok []
  | (c, d) :: rest => do
      let v ← dict_get d.competition "competition"
      let t ← low_competition_countries rest
      Except.ok (if v < 7 then c :: t else t)

/-- Result dict of `RevenueOptimizer.get_revenue_insights`; the static
`optimization_tips` string list is omitted. -/
structure RevenueInsights where
  total_market_potential : ℚ
  top_revenue_country : String
  recommended_focus_countries : List String
  high_cpm_country_list : List String
  low_competition_country_list : List String
deriving DecidableEq

/-- `RevenueOptimizer.get_revenue_insights`
(src/core/revenue_optimizer.py lines 292-316).  The dict literal's values
are evaluated in source order, so the first raising entry decides the
exception; an `Except.error` models the raised exception escaping to the
caller (this method has no try/except). -/
def get_revenue_insights : Except String RevenueInsights := do
  let total ← sum_potentials country_revenue_data
  let top ←
    match top_countries with
    | [] => Except.error "IndexError: list index out of range"
    | c :: _ => Except.ok c
  let high ← high_cpm_countries country_revenue_data
  let low ← low_competition_countries country_revenue_data
  Except.ok { total_market_potential := total,
              top_revenue_country := top,
              recommended_focus_countries := top_countries.take 3,
              high_cpm_country_list := high,
              low_competition_country_list := low }

/-- Lowercased character list of a string, Python's `line.lower()` for the
ASCII checks of the detector. -/
def lower_chars (s : String) : List Char := s.toList.map Char.toLower

/-- `hay.startswith(needle)` on character lists. -/
def has_lead : List Char → List Char → Bool
  | [], _ => true
  | _ :: _, [] => false
  | a :: as, b :: bs => a == b && has_lead as bs

/-- `needle in hay` (substring occurrence) on character lists. -/
def has_part (needle : List Char) : List Char → Bool
  | [] => has_lead needle []
  | b :: bs => has_lead needle (b :: bs) || has_part needle bs

/-- `word in line` for a string `word` against a prepared character list. -/
def contains_sub (needle : String) (hay : List Char) : Bool :=
  has_part needle.toList hay

/-- The affiliate trigger vocabulary of
`_identify_monetization_opportunities` (src/core/gemini_engine.py line 374). -/
def affiliate_words : List String := ["product", "tool", "service", "option", "solution"]

/-- The comparison trigger vocabulary (src/core/gemini_engine.py line 392). -/
def comparison_words : List String := ["vs", "compare", "comparison", "alternative"]

/-- The spots one line of the body emits, in source check order:
affiliate link (vocabulary hit on the lowercased line), then display ad
(line starts with `##` and `i > 0`), then comparison table
(src/core/gemini_engine.py lines 372-398). -/
def spots_for_line (i : Nat) (line : String) : List Spot :=
  let low := lower_chars line
  (if affiliate_words.any (fun w => contains_sub w low) then
    [{ type := "affiliate_link", position := i, context := "product_mention",
       revenue_potential := "high" }]
   else []) ++
  (if has_lead "##".toList line.toList && decide (0 < i) then
    [{ type := "display_ad", position := i, context := "section_break",
       revenue_potential := "medium" }]
   else []) ++
  (if comparison_words.any (fun w => contains_sub w low) then
    [{ type := "comparison_table", position := i, context := "comparison_section",
       revenue_potential := "very_high" }]
   else [])

/-- Python's `content.split('\\n')`, written as structural recursion on
the character list so that it evaluates inside the kernel: accumulate the
current line (reversed) and cut at every newline character. -/
def split_on_newline_aux (acc : List Char) : List Char → List String
  | [] => [String.mk acc.reverse]
  | c :: cs =>
      if c = '\n' then String.mk acc.reverse :: split_on_newline_aux [] cs
      else split_on_newline_aux (c :: acc) cs

/-- Python's `content.split('\\n')`. -/
def split_on_newline (s : String) : List String := split_on_newline_aux [] s.toList

/-- `GeminiContentEngine._identify_monetization_opportunities`
(src/core/gemini_engine.py lines 367-400): split the content on newlines
and scan the lines in order. -/
def identify_monetization_opportunities (content : String) : List Spot :=
  (((split_on_newline content).enum).map (fun p => spots_for_line p.1 p.2)).flatten

/-- `detect` applied to an already-split body: the same linear scan over a
list of lines.  `identify_monetization_opportunities` is this function
after `content.split('\n')`. -/
def detect_spots (body : List String) : List Spot :=
  ((body.enum).map (fun p => spots_for_line p.1 p.2)).flatten

/-- Python `str.title()` restricted to ASCII letters: uppercase a letter
that follows a non-letter, lowercase a letter that follows a letter. -/
def python_title_aux : Bool → List Char → List Char
  | _, [] => []
  | prev, c :: cs =>
      let isA := c.isAlpha
      (if isA then (if prev then c.toLower else c.toUpper) else c) ::
        python_title_aux isA cs

/-- Python `keyword.title()`. -/
def python_title (s : String) : String := ⟨python_title_aux false s.toList⟩

/-- Python `s.lower()`. -/
def string_to_lower (s : String) : String := ⟨lower_chars s⟩

/-- `GeminiContentEngine._generate_fallback_content`
(src/core/gemini_engine.py lines 458-473), minus the wall-clock
`generated_at` metadata key. -/
def fallback_content (keyword country : String) : Content :=
  { title := "Guide to " ++ python_title keyword ++ " in " ++ country,
    content := "This is a comprehensive guide about " ++ keyword ++ " for " ++
      country ++ " readers. Content generation is in progress.",
    meta_description := "Learn about " ++ keyword ++ " with our expert guide for " ++
      country ++ ".",
    tags := [keyword, string_to_lower country, "guide"],
    monetization_spots := some [],
    seo_score := some 60,
    metadata := some { keyword := keyword, country := country, status := some "fallback" } }

/-- The try/except shell of `GeminiContentEngine.generate_content`
(src/core/gemini_engine.py lines 154-187).  `body` stands for the outcome
of the try block (profile resolution, prompt, Gemini or simulation call,
metadata attachment); the except branch (lines 185-187) returns the
fallback content instead of re-raising, so the result is always `ok`. -/
def generate_content (body : Except String Content) (keyword country : String) :
    Except String Content :=
  match body with
  | Except.ok c => Except.ok c
  | Except.error _ => Except.ok (fallback_content keyword country)

/-- The try/except shell of `SEOOptimizer.optimize_content`
(src/core/seo_optimizer.py lines 43-74): on any failure of the try block
the original content is returned unchanged. -/
def optimize_content (body : Except String Content) (original : Content) :
    Except String Content :=
  match body with
  | Except.ok c => Except.ok c
  | Except.error _ => Except.ok original

/-- The try/except shell of `DatabaseManager.save_content`
(src/database/manager.py lines 63-80).  `insert_result` stands for the
SQL insert and commit; the except branch (lines 79-80) logs and swallows,
so the method always returns normally. -/
def save_content (insert_result : Except String Unit) : Except String Unit :=
  match insert_result with
  | Except.ok _ => Except.ok ()
  | Except.error _ => Except.ok ()

/-- Deployment record returned by `AutoPublisher.publish_to_vercel`. -/
structure PublishRecord where
  domain : Option String := none
  deployment_id : Option String := none
  status : String
  error : Option String := none
deriving DecidableEq

/-- `AutoPublisher.publish_to_vercel` (src/core/auto_publisher.py lines
24-61).  `deploy_result` stands for the deployment call; the except
branch (lines 59-61) returns a `{status: failed, error}` record instead
of raising, so the result is always `ok`. -/
def publish_to_vercel (deploy_result : Except String String) (country : String) :
    Except String PublishRecord :=
  match deploy_result with
  | Except.ok dep_id =>
      Except.ok { domain := some (string_to_lower country ++ "-blog.vercel.app"),
                  deployment_id := some dep_id, status := "success" }
  | Except.error e => Except.ok { status := "failed", error := some e }

/-- The orchestrator's view of its collaborators (spec section 6 and the
calls of src/main.py lines 340-368): each stage may raise, modelled as an
`Except`-valued call; `get_design` never raises in the source
(`CountryDesigner.get_country_design` is a dict read plus pure template
construction), so it is total. -/
structure StageEnv where
  generate : String → String → String → String → Except String Content
  seo_optimize : Content → String → Except String Content
  monetize : Content → String → Except String Content
  get_design : String → String
  apply_design : Content → String → Except String Content
  save : Content → String → String → Except String Unit
  publish : Content → String → Except String PublishRecord

/-- The stage chain of one `(keyword, content_type)` unit — the body of
the inner try of `process_global_content_generation`
(src/main.py lines 344-374): generate, optionally SEO-format, monetize,
apply design, persist, optionally publish.  An `Except.error` models an
exception reaching the unit's `except` handler. -/
def run_unit (env : StageEnv) (country keyword ctype level : String)
    (seo pub : Bool) (design : String) : Except String Content := do
  let c ← env.generate keyword country ctype level
  let c2 ← if seo then env.seo_optimize c country else Except.ok c
  let c3 ← env.monetize c2 country
  let styled ← env.apply_design c3 design
  let _ ← env.save styled country keyword
  if pub then do
    let _ ← env.publish styled country
    Except.ok styled
  else Except.ok styled

/-- The `(keyword, content_type)` pairs in the nested loop order of
src/main.py lines 342-343. -/
def unit_pairs (keywords content_types : List String) : List (String × String) :=
  (keywords.map (fun kw => content_types.map (fun ct => (kw, ct)))).flatten

/-- `True` exactly on `Except.ok`. -/
def is_success {ε α : Type} : Except ε α → Bool
  | Except.ok _ => true
  | Except.error _ => false

/-- One iteration of the unit loop's counter: a unit whose stage chain
succeeded increments `total_generated`, a failed unit is logged and
skipped (`continue`), src/main.py lines 370-378. -/
def count_step {ε γ : Type} (r : Except ε γ) (acc : Nat) : Nat :=
  match r with
  | Except.ok _ => acc + 1
  | Except.error _ => acc

/-- `process_global_content_generation` (src/main.py lines 320-387):
order the requested countries by revenue, walk the
country × keyword × content-type matrix, run each unit inside its own
try, increment `total_generated` only when the whole stage chain
succeeded, and `continue` past a failed unit.  Returns `total_generated`. -/
def process_run (env : StageEnv) (keywords target_countries content_types : List String)
    (level : String) (seo pub : Bool) : Nat :=
  (sort_countries_by_revenue target_countries).foldl (fun acc country =>
    (unit_pairs keywords content_types).foldl (fun acc2 kc =>
      count_step
        (run_unit env country kc.1 kc.2 level seo pub (env.get_design country))
        acc2) acc) 0

/-- Environment whose generator always raises and whose other stages
succeed — the concrete instance used to witness the isolation theorem. -/
def quota_env : StageEnv :=
  { generate := fun _ _ _ _ => Except.error "quota",
    seo_optimize := fun c _ => Except.ok c,
    monetize := fun c _ => Except.ok c,
    get_design := fun _ => "design",
    apply_design := fun c _ => Except.ok c,
    save := fun _ _ _ => Except.ok (),
    publish := fun _ _ => Except.ok { status := "success" } }

/-- Environment built from the repository's own collaborator shells with
every inner call failing: the Gemini call, the SEO body, the SQL insert
and the deployment all raise, and each shell swallows the failure as in
the source.  The design stage is held benign so that the behavior of the
cited stages is isolated. -/
def failing_concrete_env : StageEnv :=
  { generate := fun kw country _ _ =>
      generate_content (Except.error "Gemini API quota exceeded") kw country,
    seo_optimize := fun c _ => optimize_content (Except.error "seo failure") c,
    monetize := fun c country => Except.ok (add_monetization c country),
    get_design := fun _ => "design",
    apply_design := fun c _ => Except.ok c,
    save := fun _ _ _ => save_content (Except.error "database is locked"),
    publish := fun _ country => publish_to_vercel (Except.error "deploy failed") country }

/-! Helper lemmas about the stable descending insertion sort. -/

theorem insert_desc_perm {α : Type} (score : α → ℚ) (a : α) (l : List α) :
    List.Perm (insert_desc score a l) (a :: l) := by
  induction l with
  | nil => exact List.Perm.refl _
  | cons b t ih =>
      simp only [insert_desc]
      by_cases hab : score a ≤ score b
      · rw [if_pos hab]
        exact (ih.cons b).trans (List.Perm.swap a b t)
      · rw [if_neg hab]

theorem insert_desc_sorted {α : Type} (score : α → ℚ) (a : α) {l : List α}
    (h : l.Pairwise (fun x y => score y ≤ score x)) :
    (insert_desc score a l).Pairwise (fun x y => score y ≤ score x) := by
  induction l with
  | nil => simp [insert_desc]
  | cons b t ih =>
      rcases List.pairwise_cons.mp h with ⟨hb, ht⟩
      simp only [insert_desc]
      by_cases hab : score a ≤ score b
      · rw [if_pos hab]
        refine List.pairwise_cons.mpr ⟨?_, ih ht⟩
        intro y hy
        rcases List.mem_cons.mp ((insert_desc_perm score a t).mem_iff.mp hy) with hya | hyt
        · exact hya ▸ hab
        · exact hb y hyt
      · rw [if_neg hab]
        have hba : score b ≤ score a := le_of_lt (lt_of_not_ge hab)
        refine List.pairwise_cons.mpr ⟨?_, h⟩
        intro y hy
        rcases List.mem_cons.mp hy with hyb | hyt
        · exact hyb ▸ hba
        · exact (hb y hyt).trans hba

theorem filter_score_eq_nil {α : Type} (score : α → ℚ) (s : ℚ) {l : List α}
    (h : ∀ x ∈ l, score x < s) :
    l.filter (fun x => decide (score x = s)) = [] := by
  induction l with
  | nil => rfl
  | cons b t ih =>
      have hb : ¬ score b = s := ne_of_lt (h b (List.mem_cons_self b t))
      have ht := ih (fun x hx => h x (List.mem_cons_of_mem b hx))
      simp [List.filter_cons, hb, ht]

theorem insert_desc_filter {α : Type} (score : α → ℚ) (s : ℚ) (a : α) {l : List α}
    (h : l.Pairwise (fun x y => score y ≤ score x)) :
    (insert_desc score a l).filter (fun x => decide (score x = s)) =
      l.filter (fun x => decide (score x = s)) ++
        [a].filter (fun x => decide (score x = s)) := by
  induction l with
  | nil => simp [insert_desc]
  | cons b t ih =>
      rcases List.pairwise_cons.mp h with ⟨hb, ht⟩
      simp only [insert_desc]
      by_cases hab : score a ≤ score b
      · rw [if_pos hab, List.filter_cons, List.filter_cons, ih ht]
        by_cases hpb : score b = s
        · simp [hpb]
        · simp [hpb]
      · rw [if_neg hab, List.filter_cons]
        have hba : score b < score a := lt_of_not_ge hab
        by_cases hpa : score a = s
        · have hnil : (b :: t).filter (fun x => decide (score x = s)) = [] := by
            refine filter_score_eq_nil score s ?_
            intro x hx
            rcases List.mem_cons.mp hx with hxb | hxt
            · exact hxb ▸ (hpa ▸ hba)
            · exact lt_of_le_of_lt (hb x hxt) (hpa ▸ hba)
          simp [hpa, hnil]
        · simp [List.filter_cons, hpa]

theorem foldl_insert_sorted {α : Type} (score : α → ℚ) (l : List α) :
    ∀ acc : List α, acc.Pairwise (fun x y => score y ≤ score x) →
      (l.foldl (fun acc a => insert_desc score a acc) acc).Pairwise
        (fun x y => score y ≤ score x) := by
  induction l with
  | nil => intro acc h; exact h
  | cons a t ih =>
      intro acc h
      exact ih (insert_desc score a acc) (insert_desc_sorted score a h)

theorem foldl_insert_perm {α : Type} (score : α → ℚ) (l : List α) :
    ∀ acc : List α,
      List.Perm (l.foldl (fun acc a => insert_desc score a acc) acc) (acc ++ l) := by
  induction l with
  | nil => intro acc; simp
  | cons a t ih =>
      intro acc
      have h1 := ih (insert_desc score a acc)
      have h2 : List.Perm (insert_desc score a acc ++ t) ((a :: acc) ++ t) :=
        (insert_desc_perm score a acc).append_right t
      have h3 : List.Perm ((a :: acc) ++ t) (acc ++ a :: t) := by
        simpa using List.perm_middle.symm
      exact (h1.trans h2).trans h3

theorem foldl_insert_filter {α : Type} (score : α → ℚ) (s : ℚ) (l : List α) :
    ∀ acc : List α, acc.Pairwise (fun x y => score y ≤ score x) →
      (l.foldl (fun acc a => insert_desc score a acc) acc).filter
          (fun x => decide (score x = s)) =
        acc.filter (fun x => decide (score x = s)) ++
          l.filter (fun x => decide (score x = s)) := by
  induction l with
  | nil => intro acc h; simp
  | cons a t ih =>
      intro acc h
      have h1 := ih (insert_desc score a acc) (insert_desc_sorted score a h)
      rw [List.foldl_cons, h1, insert_desc_filter score s a h, List.append_assoc,
        List.filter_cons]
      by_cases hpa : score a = s
      · simp [hpa]
      · simp [hpa]

theorem sort_desc_sorted {α : Type} (score : α → ℚ) (l : List α) :
    (sort_desc score l).Pairwise (fun x y => score y ≤ score x) :=
  foldl_insert_sorted score l [] (List.Pairwise.nil)

theorem sort_desc_perm {α : Type} (score : α → ℚ) (l : List α) :
    List.Perm (sort_desc score l) l := by
  simpa using foldl_insert_perm score l []

theorem sort_desc_filter {α : Type} (score : α → ℚ) (s : ℚ) (l : List α) :
    (sort_desc score l).filter (fun x => decide (score x = s)) =
      l.filter (fun x => decide (score x = s)) := by
  simpa using foldl_insert_filter score s l [] (List.Pairwise.nil)

/-! Claim theorems. -/

/-- Claim C1: for every profile table, `rank_countries` returns the
country codes of the table sorted in descending order of the composite
score `cpm*0.30 + purchasing_power*0.25 + market_size*0.20 +
(10 - competition)*0.15 + (ad_click_rate*100)*0.10` (the example profile —
the USA entry — scores exactly 9.15), it returns them as a permutation of
the table's keys, and any two entries with equal scores keep the table's
original iteration order: the ranked entries with any given score are
exactly the table entries with that score, in table order. -/
theorem rank_countries_spec (table : List (String × CountryData)) :
    rank_countries table =
      (sort_desc (fun p => revenue_score p.2) table).map Prod.fst
    ∧ List.Perm (rank_countries table) (table.map Prod.fst)
    ∧ (sort_desc (fun p => revenue_score p.2) table).Pairwise
        (fun x y => revenue_score y.2 ≤ revenue_score x.2)
    ∧ (∀ s : ℚ, (sort_desc (fun p => revenue_score p.2) table).filter
          (fun x => decide (revenue_score x.2 = s)) =
        table.filter (fun x => decide (revenue_score x.2 = s)))
    ∧ revenue_score usa_data = 9.15 := by
  refine ⟨rfl, ?_, sort_desc_sorted _ table,
    fun s => sort_desc_filter _ s table, by norm_num [revenue_score, usa_data]⟩
  exact (sort_desc_perm (fun p => revenue_score p.2) table).map Prod.fst

/-- Claim C2: `filter_and_order` returns exactly the countries present in
both the ranked list and the requested list, in ranked order (it is a
sublist of the ranked list); `sort_countries_by_revenue` is
`filter_and_order` applied to the built-in ranking, so a requested
country absent from the profile table is silently dropped and no country
outside the profile table ever appears; on ranked `[A,B,C]` and requested
`[C,A]` the result is `[A,C]`. -/
theorem sort_countries_filter_spec :
    (∀ ranked requested : List String, ∀ c : String,
        c ∈ filter_and_order ranked requested ↔ c ∈ ranked ∧ c ∈ requested)
    ∧ (∀ ranked requested : List String,
        List.Sublist (filter_and_order ranked requested) ranked)
    ∧ (∀ countries : List String,
        sort_countries_by_revenue countries = filter_and_order top_countries countries)
    ∧ (∀ countries : List String, ∀ c : String,
        c ∈ sort_countries_by_revenue countries →
          c ∈ country_revenue_data.map Prod.fst)
    ∧ filter_and_order ["A", "B", "C"] ["C", "A"] = ["A", "C"] := by
  refine ⟨?_, ?_, fun _ => rfl, ?_, rfl⟩
  · intro ranked requested c
    simp [filter_and_order, List.mem_filter]
  · intro ranked requested
    exact List.filter_sublist ranked
  · intro countries c hc
    have h1 : c ∈ top_countries := (List.mem_filter.mp hc).1
    have e : top_countries =
        (sort_desc (fun p : String × CountryData => revenue_score p.2)
          country_revenue_data).map Prod.fst := rfl
    rw [e] at h1
    have h2 := (sort_desc_perm (fun p : String × CountryData => revenue_score p.2)
      country_revenue_data).map Prod.fst
    exact h2.mem_iff.mp h1

/-- Claim C3 counterexample: on the body `["# Title", "## Best tool
options", "This is a great product for you"]` the detector emits three
spots, not two — the heading line contains the vocabulary words "tool"
and "option", so it yields an affiliate_link at position 1 in addition to
the display_ad at position 1 and the affiliate_link at position 2. -/
theorem detect_example_three_spots :
    detect_spots ["# Title", "## Best tool options",
        "This is a great product for you"] =
      [{ type := "affiliate_link", position := 1, context := "product_mention",
         revenue_potential := "high" },
       { type := "display_ad", position := 1, context := "section_break",
         revenue_potential := "medium" },
       { type := "affiliate_link", position := 2, context := "product_mention",
         revenue_potential := "high" }]
    ∧ (detect_spots ["# Title", "## Best tool options",
        "This is a great product for you"]).length ≠ 2 := by
  have h : detect_spots ["# Title", "## Best tool options",
      "This is a great product for you"] =
    [{ type := "affiliate_link", position := 1, context := "product_mention",
       revenue_potential := "high" },
     { type := "display_ad", position := 1, context := "section_break",
       revenue_potential := "medium" },
     { type := "affiliate_link", position := 2, context := "product_mention",
       revenue_potential := "high" }] := rfl
  refine ⟨h, ?_⟩
  rw [h]
  decide

/-- Claim C3 (amended): `detect` applied to the body `["# Title", "## Best
tool options", "This is a great product for you"]` yields exactly three
spots: an affiliate_link at position 1 (the heading contains "tool" and
"option"), a display_ad at position 1, and an affiliate_link at
position 2; no spot sits at position 0; and scanning the corresponding
newline-joined content gives the same spots. -/
theorem detect_example_spec :
    detect_spots ["# Title", "## Best tool options",
        "This is a great product for you"] =
      [{ type := "affiliate_link", position := 1, context := "product_mention",
         revenue_potential := "high" },
       { type := "display_ad", position := 1, context := "section_break",
         revenue_potential := "medium" },
       { type := "affiliate_link", position := 2, context := "product_mention",
         revenue_potential := "high" }]
    ∧ ({ type := "display_ad", position := 1, context := "section_break",
         revenue_potential := "medium" } : Spot) ∈
        detect_spots ["# Title", "## Best tool options",
          "This is a great product for you"]
    ∧ ({ type := "affiliate_link", position := 2, context := "product_mention",
         revenue_potential := "high" } : Spot) ∈
        detect_spots ["# Title", "## Best tool options",
          "This is a great product for you"]
    ∧ (detect_spots ["# Title", "## Best tool options",
        "This is a great product for you"]).filter
          (fun s => decide (s.position = 0)) = []
    ∧ identify_monetization_opportunities
        "# Title\n## Best tool options\nThis is a great product for you" =
      detect_spots ["# Title", "## Best tool options",
        "This is a great product for you"] := by
  have h : detect_spots ["# Title", "## Best tool options",
      "This is a great product for you"] =
    [{ type := "affiliate_link", position := 1, context := "product_mention",
       revenue_potential := "high" },
     { type := "display_ad", position := 1, context := "section_break",
       revenue_potential := "medium" },
     { type := "affiliate_link", position := 2, context := "product_mention",
       revenue_potential := "high" }] := rfl
  refine ⟨h, ?_, ?_, ?_, rfl⟩ <;> rw [h]
  · exact List.mem_cons_of_mem _ (List.mem_cons_self _ _)
  · exact List.mem_cons_of_mem _ (List.mem_cons_of_mem _ (List.mem_cons_self _ _))
  · rfl

/-- Claim C10: with the built-in table every call to
`get_revenue_insights` fails with the KeyError raised by the subscript
`data["cpm"]` on the Australia record, whose CPM key is spelled `"cmp"`;
the same misspelling makes the ranking score's cpm term
`data.get("cpm", 0) = 0` for Australia, whose composite score is
therefore `0*0.3 + 7.9*0.25 + 6.0*0.2 + (10-6.2)*0.15 + 6.8*0.1 =
4.425`. -/
theorem revenue_insights_keyerror :
    australia_data.cpm = none
    ∧ australia_data.cmp = some 7.8
    ∧ get_revenue_insights = Except.error "KeyError: cpm"
    ∧ australia_data.cpm.getD 0 = 0
    ∧ revenue_score australia_data = 4.425 := by
  have ht : top_countries =
      ["USA", "Germany", "UK", "Canada", "Singapore", "Japan", "Korea",
       "Australia"] := by
    norm_num [top_countries, rank_countries, sort_desc, insert_desc, revenue_score,
      country_revenue_data, usa_data, germany_data, uk_data, canada_data,
      singapore_data, australia_data, japan_data, korea_data]
  refine ⟨rfl, rfl, ?_, rfl, by norm_num [revenue_score, australia_data]⟩
  simp only [get_revenue_insights, ht]
  rfl

theorem count_step_eq {ε γ : Type} (r : Except ε γ) (acc : Nat) :
    count_step r acc = acc + (if is_success r then 1 else 0) := by
  cases r <;> simp [count_step, is_success]

theorem foldl_count_step {ε γ β : Type} (f : β → Except ε γ) (l : List β) :
    ∀ acc : Nat,
      l.foldl (fun a kc => count_step (f kc) a) acc =
        acc + l.countP (fun kc => is_success (f kc)) := by
  induction l with
  | nil => intro acc; simp
  | cons x t ih =>
      intro acc
      rw [List.foldl_cons, ih, List.countP_cons, count_step_eq]
      by_cases hx : is_success (f x) = true
      · simp [hx]; omega
      · simp [hx]

/-- Claim C4: within one run a failure at any stage of one
`(keyword, content_type)` unit aborts only that unit.  The run's
`total_generated` equals, for every environment of stage outcomes, the
sum over the processed countries of the number of unit slots of that
country whose own stage chain succeeded — so every subsequent unit of the
same country and of later countries contributes independently of earlier
failures, the run itself always returns this summary, and a unit is
counted exactly when all its stages completed; in particular a unit whose
generation call fails is a failed unit and is not counted. -/
theorem process_run_unit_isolation (env : StageEnv)
    (keywords target_countries content_types : List String) (level : String)
    (seo pub : Bool) :
    process_run env keywords target_countries content_types level seo pub =
      ((sort_countries_by_revenue target_countries).map (fun country =>
        (unit_pairs keywords content_types).countP (fun kc =>
          is_success (run_unit env country kc.1 kc.2 level seo pub
            (env.get_design country))))).sum
    ∧ (∀ country kw ct : String, ∀ e : String,
        env.generate kw country ct level = Except.error e →
          run_unit env country kw ct level seo pub (env.get_design country) =
            Except.error e) := by
  constructor
  · have key : ∀ (cs : List String) (acc : Nat),
        cs.foldl (fun acc country =>
          (unit_pairs keywords content_types).foldl (fun acc2 kc =>
            count_step
              (run_unit env country kc.1 kc.2 level seo pub (env.get_design country))
              acc2) acc) acc =
          acc + (cs.map (fun country =>
            (unit_pairs keywords content_types).countP (fun kc =>
              is_success (run_unit env country kc.1 kc.2 level seo pub
                (env.get_design country))))).sum := by
      intro cs
      induction cs with
      | nil => intro acc; simp
      | cons c t ih =>
          intro acc
          rw [List.foldl_cons,
            foldl_count_step (fun kc =>
              run_unit env c kc.1 kc.2 level seo pub (env.get_design c))
              (unit_pairs keywords content_types) acc,
            ih, List.map_cons, List.sum_cons]
          omega
    have h0 := key (sort_countries_by_revenue target_countries) 0
    simpa [process_run] using h0
  · intro country kw ct e h
    unfold run_unit
    rw [h]
    rfl

/-- Claim C4 witness: in the concrete environment whose generator raises
"quota", the unit's stage chain fails with exactly that error, so the
unit is not counted. -/
theorem process_run_unit_isolation_witness :
    run_unit quota_env "USA" "x" "guide" "high" true true
        (quota_env.get_design "USA") = Except.error "quota" :=
  (process_run_unit_isolation quota_env ["x"] ["USA"] ["guide"] "high"
    true true).2 "USA" "x" "guide" "quota" rfl

/-- Claim C5 counterexample: a generation failure and a persistence
failure do not abort the unit.  With the repository's own wrappers, a
failing Gemini call makes `generate_content` return fallback content
normally, a failing SQL insert makes `save_content` return normally, and
a unit run against the environment in which the Gemini call, the SEO
body, the insert and the deployment all fail still completes its stage
chain successfully — so it is counted by `total_generated`. -/
theorem generation_persistence_failures_swallowed :
    generate_content (Except.error "Gemini API quota exceeded") "x" "USA" =
      Except.ok (fallback_content "x" "USA")
    ∧ save_content (Except.error "database is locked") = Except.ok ()
    ∧ is_success (run_unit failing_concrete_env "USA" "x" "guide" "high" true true
        (failing_concrete_env.get_design "USA")) = true :=
  ⟨rfl, rfl, rfl⟩

/-- Claim C5 (amended): within one unit's stage chain, neither generation
failures nor persistence failures abort the unit — the generation shell
catches every failure and returns fallback content, and the persistence
shell logs and swallows every failure — just like formatting failures
(the SEO shell returns the original content) and publishing failures
(the publish shell returns a failed-status record); each of these
wrappers always returns normally, so none of these failures aborts the
unit or the overall run: every unit run against the environment whose
generation, formatting, persistence and deployment calls all fail still
completes. -/
theorem stage_failures_degrade_in_place :
    ∀ (e kw country : String) (c : Content) (body : Except String Content)
      (ins : Except String Unit),
      generate_content (Except.error e) kw country =
        Except.ok (fallback_content kw country)
      ∧ is_success (generate_content body kw country) = true
      ∧ optimize_content (Except.error e) c = Except.ok c
      ∧ save_content (Except.error e) = Except.ok ()
      ∧ is_success (save_content ins) = true
      ∧ publish_to_vercel (Except.error e) country =
          Except.ok { status := "failed", error := some e }
      ∧ (∀ (country2 kw2 ct2 level2 : String) (s p : Bool) (d : String),
          is_success (run_unit failing_concrete_env country2 kw2 ct2 level2 s p d) =
            true) := by
  intro e kw country c body ins
  refine ⟨rfl, ?_, rfl, rfl, ?_, rfl, ?_⟩
  · cases body <;> rfl
  · cases ins <;> rfl
  · intro country2 kw2 ct2 level2 s p d
    cases s <;> cases p <;> rfl

/-! Projection lemmas for `optimize_monetization_spot`. -/

theorem opt_spot_type (s : Spot) (d : CountryData) :
    (optimize_monetization_spot s d).type = s.type := by
  simp only [optimize_monetization_spot]
  split_ifs <;> rfl

theorem opt_spot_position (s : Spot) (d : CountryData) :
    (optimize_monetization_spot s d).position = s.position := by
  simp only [optimize_monetization_spot]
  split_ifs <;> rfl

theorem opt_spot_context (s : Spot) (d : CountryData) :
    (optimize_monetization_spot s d).context = s.context := by
  simp only [optimize_monetization_spot]
  split_ifs <;> rfl

theorem opt_spot_revenue_potential (s : Spot) (d : CountryData) :
    (optimize_monetization_spot s d).revenue_potential = s.revenue_potential := by
  simp only [optimize_monetization_spot]
  split_ifs <;> rfl

theorem opt_spot_placement (s : Spot) (d : CountryData) :
    (optimize_monetization_spot s d).placement =
      some (if 8 < d.cpm.getD 5 then "above_fold" else "within_content") := by
  simp only [optimize_monetization_spot]
  split_ifs <;> rfl

theorem opt_spot_ad_size (s : Spot) (d : CountryData) :
    (optimize_monetization_spot s d).ad_size =
      if s.type = "display_ad" then
        some (if 10 < d.cpm.getD 5 then "premium_banner"
              else if 7 < d.cpm.getD 5 then "standard_banner" else "text_ad")
      else s.ad_size := by
  simp only [optimize_monetization_spot]
  split_ifs <;> rfl

theorem opt_spot_priority (s : Spot) (d : CountryData) :
    (optimize_monetization_spot s d).priority =
      if s.type = "display_ad" then
        some (if 10 < d.cpm.getD 5 then "high"
              else if 7 < d.cpm.getD 5 then "medium" else "low")
      else s.priority := by
  simp only [optimize_monetization_spot]
  split_ifs <;> rfl

theorem opt_spot_recommended (s : Spot) (d : CountryData) :
    (optimize_monetization_spot s d).recommended_categories =
      if s.type = "display_ad" then s.recommended_categories
      else if s.type = "affiliate_link" then some (d.top_affiliate_categories.take 3)
      else s.recommended_categories := by
  simp only [optimize_monetization_spot]
  split_ifs <;> rfl

theorem opt_spot_conversion (s : Spot) (d : CountryData) :
    (optimize_monetization_spot s d).conversion_rate =
      if s.type = "display_ad" then s.conversion_rate
      else if s.type = "affiliate_link" then some (d.affiliate_conversion.getD 0.02)
      else s.conversion_rate := by
  simp only [optimize_monetization_spot]
  split_ifs <;> rfl

theorem optimize_spot_idem (s : Spot) (d : CountryData) :
    optimize_monetization_spot (optimize_monetization_spot s d) d =
      optimize_monetization_spot s d := by
  ext
  · rw [opt_spot_type, opt_spot_type]
  · rw [opt_spot_position, opt_spot_position]
  · rw [opt_spot_context, opt_spot_context]
  · rw [opt_spot_revenue_potential, opt_spot_revenue_potential]
  · rw [opt_spot_ad_size, opt_spot_ad_size, opt_spot_type]
    split_ifs <;> rfl
  · rw [opt_spot_priority, opt_spot_priority, opt_spot_type]
    split_ifs <;> rfl
  · rw [opt_spot_recommended, opt_spot_recommended, opt_spot_type]
    split_ifs <;> rfl
  · rw [opt_spot_conversion, opt_spot_conversion, opt_spot_type]
    split_ifs <;> rfl
  · rw [opt_spot_placement, opt_spot_placement]

/-- Claim C6: for every spot and every profile whose cpm is `c` and whose
affiliate conversion is `a`, optimization gives a display_ad spot
`premium_banner/high` when `c > 10`, `standard_banner/medium` when
`7 < c ≤ 10` and `text_ad/low` otherwise; gives an affiliate_link spot
the first 3 of the profile's top affiliate categories and conversion rate
`a`; and gives every spot, regardless of type, placement `above_fold`
when `c > 8` and `within_content` otherwise. -/
theorem optimize_spot_cases (spot : Spot) (d : CountryData) (c a : ℚ)
    (hc : d.cpm = some c) (ha : d.affiliate_conversion = some a) :
    (spot.type = "display_ad" →
      ((10 < c →
          (optimize_monetization_spot spot d).ad_size = some "premium_banner" ∧
          (optimize_monetization_spot spot d).priority = some "high")
       ∧ (7 < c → c ≤ 10 →
          (optimize_monetization_spot spot d).ad_size = some "standard_banner" ∧
          (optimize_monetization_spot spot d).priority = some "medium")
       ∧ (c ≤ 7 →
          (optimize_monetization_spot spot d).ad_size = some "text_ad" ∧
          (optimize_monetization_spot spot d).priority = some "low")))
    ∧ (spot.type = "affiliate_link" →
        (optimize_monetization_spot spot d).recommended_categories =
          some (d.top_affiliate_categories.take 3) ∧
        (optimize_monetization_spot spot d).conversion_rate = some a)
    ∧ (8 < c → (optimize_monetization_spot spot d).placement = some "above_fold")
    ∧ (c ≤ 8 →
        (optimize_monetization_spot spot d).placement = some "within_content") := by
  have hcpm : d.cpm.getD 5 = c := by rw [hc]; rfl
  refine ⟨fun hty => ⟨fun h10 => ?_, fun h7 h10 => ?_, fun h7 => ?_⟩,
    fun hty => ?_, fun h8 => ?_, fun h8 => ?_⟩
  · rw [opt_spot_ad_size, opt_spot_priority, hcpm, if_pos hty, if_pos hty,
      if_pos h10, if_pos h10]
    exact ⟨rfl, rfl⟩
  · rw [opt_spot_ad_size, opt_spot_priority, hcpm, if_pos hty, if_pos hty,
      if_neg (not_lt.mpr h10), if_neg (not_lt.mpr h10), if_pos h7, if_pos h7]
    exact ⟨rfl, rfl⟩
  · have h10 : ¬ (10 : ℚ) < c := not_lt.mpr (h7.trans (by norm_num))
    rw [opt_spot_ad_size, opt_spot_priority, hcpm, if_pos hty, if_pos hty,
      if_neg h10, if_neg h10, if_neg (not_lt.mpr h7), if_neg (not_lt.mpr h7)]
    exact ⟨rfl, rfl⟩
  · have hnd : ¬ spot.type = "display_ad" := by rw [hty]; decide
    rw [opt_spot_recommended, opt_spot_conversion, if_neg hnd, if_neg hnd,
      if_pos hty, if_pos hty, ha]
    exact ⟨rfl, rfl⟩
  · rw [opt_spot_placement, hcpm, if_pos h8]
  · rw [opt_spot_placement, hcpm, if_neg (not_lt.mpr h8)]

/-- Claim C6 witness: the USA profile has cpm 12.5 and conversion 0.035,
and a display_ad spot optimized against it receives a premium banner. -/
theorem optimize_spot_cases_witness :
    usa_data.cpm = some 12.5 ∧ usa_data.affiliate_conversion = some 0.035 ∧
    (optimize_monetization_spot
      { type := "display_ad", position := 1, context := "section_break",
        revenue_potential := "medium" } usa_data).ad_size =
      some "premium_banner" :=
  ⟨rfl, rfl,
    (((optimize_spot_cases
      { type := "display_ad", position := 1, context := "section_break",
        revenue_potential := "medium" } usa_data 12.5 0.035 rfl rfl).1 rfl).1
      (by norm_num)).1⟩

/-- Claim C7: optimization maps the spot list one-to-one, preserving
length and order, and every output spot keeps its original type,
position, context and revenue_potential; applying optimization twice with
the same profile gives the same list as applying it once. -/
theorem optimize_spots_frame (spots : List Spot) (d : CountryData) :
    (spots.map (fun s => optimize_monetization_spot s d)).length = spots.length
    ∧ (spots.map (fun s => optimize_monetization_spot s d)).map Spot.type =
        spots.map Spot.type
    ∧ (spots.map (fun s => optimize_monetization_spot s d)).map Spot.position =
        spots.map Spot.position
    ∧ (spots.map (fun s => optimize_monetization_spot s d)).map Spot.context =
        spots.map Spot.context
    ∧ (spots.map (fun s => optimize_monetization_spot s d)).map
          Spot.revenue_potential = spots.map Spot.revenue_potential
    ∧ (spots.map (fun s => optimize_monetization_spot s d)).map
          (fun s => optimize_monetization_spot s d) =
        spots.map (fun s => optimize_monetization_spot s d) := by
  refine ⟨List.length_map spots _, ?_, ?_, ?_, ?_, ?_⟩
  · simp [List.map_map, Function.comp_def, opt_spot_type]
  · simp [List.map_map, Function.comp_def, opt_spot_position]
  · simp [List.map_map, Function.comp_def, opt_spot_context]
  · simp [List.map_map, Function.comp_def, opt_spot_revenue_potential]
  · simp [List.map_map, Function.comp_def, optimize_spot_idem]

/-- Claim C8: for every profile with cpm `c`, click rate `r` and
affiliate conversion `v`, `predict` computes ad revenue
`views * c / 1000`, affiliate revenue `views * r * v * 50` and their sum,
each rounded to 2 decimal places, with the fixed planning constant
`views = 10000`; on cpm 10, click rate 0.05 and conversion 0.02 it
returns exactly 100, 500 and 600. -/
theorem revenue_prediction_spec (d : CountryData) (c r v : ℚ)
    (hc : d.cpm = some c) (hr : d.ad_click_rate = some r)
    (hv : d.affiliate_conversion = some v) :
    (calculate_revenue_prediction d).monthly_ad_revenue =
      round2 (10000 * c / 1000)
    ∧ (calculate_revenue_prediction d).monthly_affiliate_revenue =
        round2 (10000 * r * v * 50)
    ∧ (calculate_revenue_prediction d).total_monthly_revenue =
        round2 (10000 * c / 1000 + 10000 * r * v * 50)
    ∧ (calculate_revenue_prediction d).estimated_views = 10000
    ∧ (calculate_revenue_prediction d).cpm = c
    ∧ calculate_revenue_prediction
        { cpm := some 10, ad_click_rate := some 0.05,
          affiliate_conversion := some 0.02 } =
        { monthly_ad_revenue := 100, monthly_affiliate_revenue := 500,
          total_monthly_revenue := 600, estimated_views := 10000, cpm := 10 } := by
  refine ⟨?_, ?_, ?_, ?_, ?_, ?_⟩
  · simp [calculate_revenue_prediction, hc]
  · simp [calculate_revenue_prediction, hr, hv]
  · simp [calculate_revenue_prediction, hc, hr, hv]
  · rfl
  · simp [calculate_revenue_prediction, hc]
  · norm_num [calculate_revenue_prediction, round2, round_half_even]

/-- Claim C8 witness: at the example profile the hypotheses hold by
definition and the ad-revenue formula instantiates as stated. -/
theorem revenue_prediction_spec_witness :
    ({ cpm := some 10, ad_click_rate := some 0.05,
       affiliate_conversion := some 0.02 } : CountryData).cpm = some 10
    ∧ (calculate_revenue_prediction
        { cpm := some 10, ad_click_rate := some 0.05,
          affiliate_conversion := some 0.02 }).monthly_ad_revenue =
      round2 (10000 * 10 / 1000) :=
  ⟨rfl, (revenue_prediction_spec
    { cpm := some 10, ad_click_rate := some 0.05,
      affiliate_conversion := some 0.02 } 10 0.05 0.02 rfl rfl rfl).1⟩

/-- Claim C9: the monetization-spot engine's per-country operations are
total functions of the model: for every content record and every country
absent from the profile table, the table lookup yields the empty profile,
monetization optimization and revenue prediction still return a result,
and the documented defaults are substituted — cpm 5.0, ad_click_rate
0.05, affiliate_conversion 0.02 — so the prediction equals the one for an
explicit default profile (50, 500 and 550 dollars) and every optimized
spot is placed within_content (default cpm 5 is not above 8). -/
theorem add_monetization_default_profile (content : Content) (country : String)
    (h : ¬ country ∈ country_revenue_data.map Prod.fst) :
    lookup_country_data country = empty_country_data
    ∧ calculate_revenue_prediction (lookup_country_data country) =
        calculate_revenue_prediction
          { cpm := some 5, ad_click_rate := some 0.05,
            affiliate_conversion := some 0.02 }
    ∧ (add_monetization content country).premium_keywords = some []
    ∧ (add_monetization content country).recommended_ad_networks = some []
    ∧ (add_monetization content country).revenue_prediction =
        some (calculate_revenue_prediction empty_country_data)
    ∧ calculate_revenue_prediction empty_country_data =
        { monthly_ad_revenue := 50, monthly_affiliate_revenue := 500,
          total_monthly_revenue := 550, estimated_views := 10000, cpm := 5 }
    ∧ (∀ s : Spot, (optimize_monetization_spot s empty_country_data).placement =
        some "within_content") := by
  have hl : country_revenue_data.lookup country = none := by
    simp [country_revenue_data] at h
    have h1 := beq_eq_false_iff_ne.mpr h.1
    have h2 := beq_eq_false_iff_ne.mpr h.2.1
    have h3 := beq_eq_false_iff_ne.mpr h.2.2.1
    have h4 := beq_eq_false_iff_ne.mpr h.2.2.2.1
    have h5 := beq_eq_false_iff_ne.mpr h.2.2.2.2.1
    have h6 := beq_eq_false_iff_ne.mpr h.2.2.2.2.2.1
    have h7 := beq_eq_false_iff_ne.mpr h.2.2.2.2.2.2.1
    have h8 := beq_eq_false_iff_ne.mpr h.2.2.2.2.2.2.2
    simp [country_revenue_data, List.lookup, h1, h2, h3, h4, h5, h6, h7, h8]
  have he : lookup_country_data country = empty_country_data := by
    rw [lookup_country_data, hl]
    rfl
  refine ⟨he, ?_, ?_, ?_, ?_, ?_, ?_⟩
  · rw [he]
    rfl
  · simp [add_monetization, he, empty_country_data]
  · simp [add_monetization, he, empty_country_data]
  · simp [add_monetization, he]
  · norm_num [calculate_revenue_prediction, round2, round_half_even,
      empty_country_data]
  · intro s
    rw [opt_spot_placement]
    norm_num [empty_country_data]

/-- Claim C9 witness: the country "Mars" is not in the profile table and
its lookup yields the empty profile. -/
theorem add_monetization_default_profile_witness :
    ¬ "Mars" ∈ country_revenue_data.map Prod.fst
    ∧ lookup_country_data "Mars" = empty_country_data :=
  ⟨by decide, (add_monetization_default_profile {} "Mars" (by decide)).1⟩
